import Mathlib

/-!
Verification of the Code Quality Analyzer core (src/analyzer.py).

This file shallowly embeds the analyzer: the fragment of the Python abstract
tree that the analyzer inspects, the node walk, the line-based scans, the six
rule analyzers, the score aggregation and the report generation.  Python
floats are modelled by exact rationals; every arithmetic value produced by the
analyzer is a small decimal, and no property proved here depends on binary
floating point rounding.  Machine strings are Lean strings, and the two
regular expression shapes used by the security analyzer are implemented
directly as decidable scanners.
-/

namespace Analyzer

/-! ## The source-tree fragment

The analyzer only ever inspects these node kinds: function definitions (sync
and async), class definitions, loops, conditionals, try blocks with their
exception handlers, expression statements, assignments, returns, and the
expressions reachable from them (names, attribute accesses, calls, constants).
Exception handler nodes are modelled as a statement constructor; in the
Python tree they are a separate node class that only occurs in the handler
list of a try statement, and every analyzer check treats them positionally
the same way.  Parameter and return type hints are modelled by their
presence only (the analyzer never looks inside a type hint).  The rarely
used else blocks of loops and try statements and decorator lists are outside
the fragment. -/

inductive PyExpr where
  | name (id : String) (lineno : Nat)
  | attribute_ (value : PyExpr) (attr : String) (lineno : Nat)
  | call (func : PyExpr) (args : List PyExpr) (lineno : Nat)
  | strConst (s : String) (lineno : Nat)
  | const (lineno : Nat)

/-- One formal parameter: its name and whether it carries a type hint. -/
structure PyArg where
  name : String
  annotated : Bool

mutual
inductive PyStmt where
  | functionDef (name : String) (args : List PyArg) (body : List PyStmt)
      (returns : Bool) (lineno endLineno : Nat)
  | asyncFunctionDef (name : String) (args : List PyArg) (body : List PyStmt)
      (returns : Bool) (lineno endLineno : Nat)
  | classDef (name : String) (body : List PyStmt) (lineno endLineno : Nat)
  | forStmt (target : PyExpr) (iter : PyExpr) (body : List PyStmt) (lineno : Nat)
  | whileStmt (test : PyExpr) (body : List PyStmt) (lineno : Nat)
  | ifStmt (test : PyExpr) (body : List PyStmt) (orelse : List PyStmt) (lineno : Nat)
  | tryStmt (body : List PyStmt) (handlers : List PyHandler) (finalbody : List PyStmt)
      (lineno : Nat)
  | exprStmt (value : PyExpr) (lineno : Nat)
  | assign (targets : List PyExpr) (value : PyExpr) (lineno : Nat)
  | ret (value : Option PyExpr) (lineno : Nat)
  | passStmt (lineno : Nat)

inductive PyHandler where
  | mk (type : Option PyExpr) (body : List PyStmt) (lineno : Nat)
end

/-- A node as seen by the generic tree walk: either a statement-level node,
an exception handler, or an expression. -/
inductive PyNode where
  | stmt (s : PyStmt)
  | handler (h : PyHandler)
  | expr (e : PyExpr)

/-! ## The tree walk

Python `ast.walk` enumerates every node of a subtree (breadth first).  The
analyzers only fold over the resulting node collection, testing each node in
isolation, so only the multiset of visited nodes matters to any property in
this file; we enumerate the same nodes in depth-first preorder.  Expressions
contain no statements in this fragment, so the expression walk returns
`PyExpr` directly. -/

mutual
def walkExpr : PyExpr → List PyExpr
  | e@(.name _ _) => [e]
  | e@(.attribute_ value _ _) => e :: walkExpr value
  | e@(.call func args _) => e :: (walkExpr func ++ walkExprs args)
  | e@(.strConst _ _) => [e]
  | e@(.const _) => [e]

def walkExprs : List PyExpr → List PyExpr
  | [] => []
  | e :: es => walkExpr e ++ walkExprs es
end

def walkExprOpt : Option PyExpr → List PyExpr
  | none => []
  | some e => walkExpr e

mutual
def walkStmt : PyStmt → List PyNode
  | s@(.functionDef _ _ body _ _ _) => .stmt s :: walkStmts body
  | s@(.asyncFunctionDef _ _ body _ _ _) => .stmt s :: walkStmts body
  | s@(.classDef _ body _ _) => .stmt s :: walkStmts body
  | s@(.forStmt target iter body _) =>
      .stmt s :: ((walkExpr target).map .expr ++ (walkExpr iter).map .expr ++ walkStmts body)
  | s@(.whileStmt test body _) =>
      .stmt s :: ((walkExpr test).map .expr ++ walkStmts body)
  | s@(.ifStmt test body orelse _) =>
      .stmt s :: ((walkExpr test).map .expr ++ walkStmts body ++ walkStmts orelse)
  | s@(.tryStmt body handlers finalbody _) =>
      .stmt s :: (walkStmts body ++ walkHandlers handlers ++ walkStmts finalbody)
  | s@(.exprStmt value _) => .stmt s :: (walkExpr value).map .expr
  | s@(.assign targets value _) =>
      .stmt s :: ((walkExprs targets).map .expr ++ (walkExpr value).map .expr)
  | s@(.ret value _) => .stmt s :: (walkExprOpt value).map .expr
  | s@(.passStmt _) => [.stmt s]

def walkStmts : List PyStmt → List PyNode
  | [] => []
  | s :: ss => walkStmt s ++ walkStmts ss

def walkHandler : PyHandler → List PyNode
  | h@(.mk ty body _) => .handler h :: ((walkExprOpt ty).map .expr ++ walkStmts body)

def walkHandlers : List PyHandler → List PyNode
  | [] => []
  | h :: hs => walkHandler h ++ walkHandlers hs
end

/-- The walk (`ast.walk`) over a whole parsed module.  The module node itself matches
none of the analyzer checks, so enumerating the top-level statement subtrees
visits every node any analyzer can react to. -/
def walkModule (tree : List PyStmt) : List PyNode :=
  walkStmts tree

/-! ## Raw-line helpers (Python string methods used by the analyzer) -/

/-- The characters removed by Python `str.strip()` (ASCII fragment). -/
def isPyStripSpace (c : Char) : Bool :=
  c = ' ' || c = '\t' || c = '\n' || c = '\r' || c = '\x0b' || c = '\x0c'

/-- Python `line.strip()` on the character list of a line. -/
def pyStrip (cs : List Char) : List Char :=
  ((cs.dropWhile isPyStripSpace).reverse.dropWhile isPyStripSpace).reverse

/-- Python `str.islower()` (ASCII fragment): at least one cased character and
no uppercase character. -/
def pyIsLower (s : String) : Bool :=
  s.toList.any (fun c => c.isLower || c.isUpper) && s.toList.all (fun c => !c.isUpper)

/-! ## The secret-pattern scanner

The security analyzer tests each raw line, case-insensitively, against the
four regular expressions `kw\s*=\s*[quote].*[quote]` for the keywords
password, api_key, secret and token, where `[quote]` accepts a double or a
single quote.  `re.search` succeeds iff some suffix of the line matches at
its start.  Because `=`, quotes and the whitespace class are disjoint, the
greedy whitespace skips are exact, and because a line contains no newline,
the tail `.*[quote]` matches iff some later character is a quote. -/

def isQuoteChar (c : Char) : Bool :=
  c = '"' || c.toNat = 39

/-- Match the literal keyword case-insensitively at the head of `cs`,
returning the remainder. -/
def matchKeywordCI : List Char → List Char → Option (List Char)
  | [], cs => some cs
  | _ :: _, [] => none
  | k :: ks, c :: cs => if c.toLower = k then matchKeywordCI ks cs else none

/-- Does `kw\s*=\s*[quote].*[quote]` match at the head of `cs`? -/
def secretMatchAt (kw : List Char) (cs : List Char) : Bool :=
  match matchKeywordCI kw cs with
  | none => false
  | some rest =>
    match rest.dropWhile isPyStripSpace with
    | '=' :: rest2 =>
      match rest2.dropWhile isPyStripSpace with
      | c :: rest3 => isQuoteChar c && rest3.any isQuoteChar
      | [] => false
    | _ => false

/-- Python `re.search(pattern, line, re.IGNORECASE)` for one secret pattern. -/
def reSearchSecret (kw : String) (line : String) : Bool :=
  (line.toList.tails).any (secretMatchAt kw.toList)

/-- The four keywords of the hardcoded-secret patterns, in source order. -/
def secretPatterns : List String :=
  ["password", "api_key", "secret", "token"]

/-! ## Data model -/

inductive Severity where
  | critical | high | medium | low
deriving DecidableEq

/-- One finding, as stored in the issue buckets.  Descriptions follow the
source texts with the ASCII quote decorations around interpolated names
omitted; no property below depends on description wording. -/
structure Issue where
  line : Nat
  issue : String
  description : String
  severity : Severity
deriving DecidableEq

/-- The four severity buckets, in display order. -/
structure Issues where
  critical : List Issue
  high : List Issue
  medium : List Issue
  low : List Issue
deriving DecidableEq

structure Metrics where
  lines_of_code : Nat
  comment_lines : Nat
  blank_lines : Nat
  functions : Nat
  classes : Nat
  complexity : Nat
  max_function_length : Int
  avg_function_length : ℚ
deriving DecidableEq

structure Scores where
  structure_ : ℚ
  error_handling : ℚ
  performance : ℚ
  security : ℚ
  maintainability : ℚ
  best_practices : ℚ
deriving DecidableEq

structure Report where
  file : String
  overall_score : ℚ
  category_scores : Scores
  metrics : Metrics
  issues : Issues
  total_issues : Nat
deriving DecidableEq

/-- The analyzer state as initialised by the constructor: all metrics zero. -/
def initMetrics : Metrics :=
  ⟨0, 0, 0, 0, 0, 0, 0, 0⟩

/-- The analyzer state as initialised by the constructor: all scores zero. -/
def initScores : Scores :=
  ⟨0, 0, 0, 0, 0, 0⟩

/-- A parse failure: the message and line reported by the parser. -/
structure SynErr where
  msg : String
  lineno : Nat
deriving DecidableEq

/-- The runtime fault the embedded code can raise: reading an object
attribute that was never assigned. -/
inductive PyError where
  | attributeError (attr : String)
deriving DecidableEq

/-- One source file as the core sees it: a name, the newline-split raw lines,
and the outcome of handing the text to the parser. -/
structure Source where
  fileName : String
  lines : List String
  parseResult : Except SynErr (List PyStmt)

/-- Python `max(a, b)`: the second argument when it is strictly greater.
(The library `max` on the rationals does not reduce in the kernel, so the
clamp is spelled out; it agrees with `max`.) -/
def pyMax (a b : ℚ) : ℚ :=
  if a < b then b else a

/-! ## Metric collector (`_analyze_metrics`) -/

/-- The blank/comment line classification loop: a line that strips to nothing
is blank, a stripped line starting with the comment marker is a comment.
Returns (comment lines, blank lines). -/
def classifyLines (lines : List String) : Nat × Nat :=
  lines.foldl
    (fun acc line =>
      let stripped := pyStrip line.toList
      if stripped = [] then (acc.1, acc.2 + 1)
      else if stripped.head? = some '#' then (acc.1 + 1, acc.2)
      else acc)
    (0, 0)

/-- The function/class counting loop over the walked tree.  Async function
definitions are a distinct node class and match neither branch. -/
def defCountStep (acc : Nat × Nat) (n : PyNode) : Nat × Nat :=
  match n with
  | .stmt (.functionDef _ _ _ _ _ _) => (acc.1 + 1, acc.2)
  | .stmt (.classDef _ _ _ _) => (acc.1, acc.2 + 1)
  | _ => acc

def analyzeMetrics (lines : List String) (ns : List PyNode) : Metrics :=
  let cb := classifyLines lines
  let fc := ns.foldl defCountStep (0, 0)
  { lines_of_code := lines.length
    comment_lines := cb.1
    blank_lines := cb.2
    functions := fc.1
    classes := fc.2
    complexity := 0
    max_function_length := 0
    avg_function_length := 0 }

/-! ## Structure analyzer (`_analyze_structure`) -/

structure StructAcc where
  highs : List Issue
  meds : List Issue
  lengths : List Int
  score : ℚ
deriving DecidableEq

def longFunctionHigh (name : String) (length : Int) (lineno : Nat) : Issue :=
  ⟨lineno, "Long Function", s!"Function {name} is {length} lines (>100)", .high⟩

def longFunctionMed (name : String) (length : Int) (lineno : Nat) : Issue :=
  ⟨lineno, "Long Function", s!"Function {name} is {length} lines (>50)", .medium⟩

def structStep (acc : StructAcc) (n : PyNode) : StructAcc :=
  match n with
  | .stmt (.functionDef name _ _ _ lineno endLineno) =>
      let length : Int := (endLineno : Int) - (lineno : Int)
      let acc := { acc with lengths := acc.lengths ++ [length] }
      if 100 < length then
        { acc with
          highs := acc.highs ++ [longFunctionHigh name length lineno]
          score := acc.score - 1 }
      else if 50 < length then
        { acc with
          meds := acc.meds ++ [longFunctionMed name length lineno]
          score := acc.score - 0.5 }
      else acc
  | _ => acc

/-- The duplication check (`_check_duplication`): collect stripped lines that are non-blank,
non-comment and longer than 20 characters; report whenever some such line
occurs more than twice.  The source tallies occurrences in a dictionary;
a value reaching a count above 2 is the same as some occurrence seeing its
own count above 2. -/
def checkDuplication (lines : List String) : Bool :=
  let candidates := (lines.map (fun l => pyStrip l.toList)).filter
    (fun s => !s.isEmpty && s.head? ≠ some '#' && decide (20 < s.length))
  candidates.any (fun s => 2 < candidates.count s)

def dupIssue : Issue :=
  ⟨0, "Code Duplication", "Potential code duplication detected", .medium⟩

structure StructOut where
  highs : List Issue
  meds : List Issue
  metrics : Metrics
  score : ℚ
deriving DecidableEq

def analyzeStructure (ns : List PyNode) (lines : List String) (m : Metrics) : StructOut :=
  let r := ns.foldl structStep ⟨[], [], [], 10⟩
  let m :=
    match r.lengths with
    | [] => m
    | l :: ls =>
        { m with
          max_function_length := ls.foldl max l
          avg_function_length := (((l :: ls).foldl (fun a b => a + b) 0 : Int) : ℚ)
            / ((l :: ls).length : ℚ) }
  if checkDuplication lines then
    ⟨r.highs, r.meds ++ [dupIssue], m, pyMax 0 (r.score - 1)⟩
  else
    ⟨r.highs, r.meds, m, pyMax 0 r.score⟩

/-! ## Error-handling analyzer (`_analyze_error_handling`) -/

def bareExceptIssue (lineno : Nat) : Issue :=
  ⟨lineno, "Bare Except Clause",
    "Using bare except catches all exceptions including system exits", .high⟩

def errStep (acc : List Issue × ℚ) (n : PyNode) : List Issue × ℚ :=
  match n with
  | .handler (.mk none _ lineno) => (acc.1 ++ [bareExceptIssue lineno], acc.2 - 2)
  | _ => acc

def isTryNode : PyNode → Bool
  | .stmt (.tryStmt _ _ _ _) => true
  | _ => false

def noErrorHandlingIssue : Issue :=
  ⟨0, "No Error Handling", "No try or except blocks found", .medium⟩

structure ErrOut where
  highs : List Issue
  meds : List Issue
  score : ℚ
deriving DecidableEq

def analyzeErrorHandling (ns : List PyNode) (functions : Nat) : ErrOut :=
  let be := ns.foldl errStep ([], 10)
  let tryCount := ns.countP isTryNode
  if tryCount = 0 ∧ 0 < functions then
    ⟨be.1, [noErrorHandlingIssue], pyMax 0 (be.2 - 2)⟩
  else
    ⟨be.1, [], pyMax 0 be.2⟩

/-! ## Performance analyzer (`_analyze_performance`) -/

/-- Is this node an expression statement whose value is a call of a method
named append?  The inner heuristic of the for-loop check. -/
def isAppendExprStmt : PyNode → Bool
  | .stmt (.exprStmt (.call (.attribute_ _ attr _) _ _) _) => attr == "append"
  | _ => false

def listCompIssue (lineno : Nat) : Issue :=
  ⟨lineno, "List Comprehension Opportunity", "Consider using list comprehension", .low⟩

def perfStep (acc : List Issue × ℚ) (n : PyNode) : List Issue × ℚ :=
  match n with
  | .stmt (.forStmt target iter body lineno) =>
      if (walkStmt (.forStmt target iter body lineno)).any isAppendExprStmt then
        (acc.1 ++ [listCompIssue lineno], acc.2 - 0.3)
      else acc
  | _ => acc

structure PerfOut where
  issues : List Issue
  score : ℚ
deriving DecidableEq

def analyzePerformance (ns : List PyNode) : PerfOut :=
  let r := ns.foldl perfStep ([], 10)
  ⟨r.1, pyMax 0 r.2⟩

/-! ## Security analyzer (`_analyze_security`) -/

def mkSecretIssue (i : Nat) : Issue :=
  ⟨i, "Hardcoded Secret", "Potential hardcoded secret found", .critical⟩

/-- The line loop: lines are enumerated from 1, and every one of the four
patterns matching a line emits its own critical issue and penalty. -/
def secretScan : Nat → List String → List Issue × ℚ → List Issue × ℚ
  | _, [], acc => acc
  | i, line :: rest, acc =>
      let hits := secretPatterns.filter (fun kw => reSearchSecret kw line)
      secretScan (i + 1) rest
        (acc.1 ++ hits.map (fun _ => mkSecretIssue i), acc.2 - 3 * (hits.length : ℚ))

def dangerousIssue (id : String) (lineno : Nat) : Issue :=
  ⟨lineno, "Dangerous Function", s!"Use of {id}() is dangerous", .critical⟩

def dangStep (acc : List Issue × ℚ) (n : PyNode) : List Issue × ℚ :=
  match n with
  | .expr (.call (.name id _) _ lineno) =>
      if id == "eval" || id == "exec" then
        (acc.1 ++ [dangerousIssue id lineno], acc.2 - 3)
      else acc
  | _ => acc

structure SecOut where
  issues : List Issue
  score : ℚ
deriving DecidableEq

def analyzeSecurity (lines : List String) (ns : List PyNode) : SecOut :=
  let acc1 := secretScan 1 lines ([], 10)
  let r := ns.foldl dangStep acc1
  ⟨r.1, pyMax 0 r.2⟩

/-! ## Maintainability analyzer (`_analyze_maintainability`) -/

/-- Truthiness of `ast.get_docstring`: the first body statement is a string
constant and the cleaned string is non-empty.  The cleaned form of a string
is empty exactly when the raw string is whitespace-only. -/
def truthyDocstring : List PyStmt → Bool
  | .exprStmt (.strConst s _) _ :: _ => !(pyStrip s.toList).isEmpty
  | _ => false

/-- Docstring loop: (total function definitions, those with a docstring). -/
def docStep (acc : Nat × Nat) (n : PyNode) : Nat × Nat :=
  match n with
  | .stmt (.functionDef _ _ body _ _ _) =>
      (acc.1 + 1, if truthyDocstring body then acc.2 + 1 else acc.2)
  | _ => acc

/-- Type-hint loop: function definitions with a return hint or a hinted
parameter. -/
def hintStep (acc : Nat) (n : PyNode) : Nat :=
  match n with
  | .stmt (.functionDef _ args _ returns _ _) =>
      if returns || args.any (fun a => a.annotated) then acc + 1 else acc
  | _ => acc

def lowDocIssue (p : Int) : Issue :=
  ⟨0, "Low Documentation", s!"Only {p} percent of functions have docstrings", .medium⟩

def missingHintsIssue (p : Int) : Issue :=
  ⟨0, "Missing Type Hints", s!"Only {p} percent of functions have type hints", .low⟩

/-- Python `round` on an exact rational value: nearest integer, ties to
even.  Used for the one-decimal display rounding and the percentage
formatting inside issue descriptions. -/
def pyRound (x : ℚ) : ℤ :=
  let f : ℤ := ⌊x⌋
  let r : ℚ := x - (f : ℚ)
  if r < 1 / 2 then f
  else if 1 / 2 < r then f + 1
  else if f % 2 = 0 then f else f + 1

structure MaintOut where
  meds : List Issue
  lows : List Issue
  score : ℚ
deriving DecidableEq

def analyzeMaintainability (ns : List PyNode) : MaintOut :=
  let dc := ns.foldl docStep (0, 0)
  let total := dc.1
  let st1 :=
    if 0 < total then
      let docCoverage : ℚ := ((dc.2 : ℚ) / (total : ℚ)) * 100
      if docCoverage < 50 then
        (([lowDocIssue (pyRound docCoverage)] : List Issue), (10 : ℚ) - 2)
      else ([], 10)
    else ([], 10)
  let withHints := ns.foldl hintStep 0
  let st2 :=
    if 0 < total then
      let hintCoverage : ℚ := ((withHints : ℚ) / (total : ℚ)) * 100
      if hintCoverage < 30 then
        (([missingHintsIssue (pyRound hintCoverage)] : List Issue), st1.2 - 1)
      else ([], st1.2)
    else ([], st1.2)
  ⟨st1.1, st2.1, pyMax 0 st2.2⟩

/-! ## Best-practices analyzer (`_analyze_best_practices`) -/

def printIssue (lineno : Nat) : Issue :=
  ⟨lineno, "Print Statement", "Consider using logging instead of print()", .low⟩

def printStep (acc : List Issue × ℚ) (n : PyNode) : List Issue × ℚ :=
  match n with
  | .expr (.call (.name id _) _ lineno) =>
      if id == "print" then (acc.1 ++ [printIssue lineno], acc.2 - 0.2)
      else acc
  | _ => acc

def namingIssue (name : String) (lineno : Nat) : Issue :=
  ⟨lineno, "Naming Convention", s!"Function {name} should use snake_case", .low⟩

def namingStep (acc : List Issue × ℚ) (n : PyNode) : List Issue × ℚ :=
  match n with
  | .stmt (.functionDef name _ _ _ lineno _) =>
      if !pyIsLower name && name != "__init__" then
        (acc.1 ++ [namingIssue name lineno], acc.2 - 0.3)
      else acc
  | _ => acc

structure BpOut where
  issues : List Issue
  score : ℚ
deriving DecidableEq

def analyzeBestPractices (ns : List PyNode) : BpOut :=
  let acc1 := ns.foldl printStep ([], 10)
  let r := ns.foldl namingStep acc1
  ⟨r.1, pyMax 0 r.2⟩

/-! ## Score aggregation and report (`_calculate_scores`, `generate_report`) -/

/-- The aggregation (`_calculate_scores`): the weighted sum over the fixed weight table, in its
insertion order. -/
def calcOverall (s : Scores) : ℚ :=
  s.structure_ * 0.20 + s.error_handling * 0.20 + s.performance * 0.15 +
    s.security * 0.15 + s.maintainability * 0.15 + s.best_practices * 0.15

/-- Python `round(x, 1)` over the exact rational value (ties to even). -/
def roundTo1 (x : ℚ) : ℚ :=
  ((pyRound (10 * x) : ℤ) : ℚ) / 10

def totalIssueCount (i : Issues) : Nat :=
  i.critical.length + i.high.length + i.medium.length + i.low.length

/-- The report builder (`generate_report`) reads `self.overall_score`; that attribute exists only
if `_calculate_scores` ran, so the argument is optional and the missing case
raises. -/
def generateReport (file : String) (overall : Option ℚ) (scores : Scores)
    (metrics : Metrics) (issues : Issues) : Except PyError Report :=
  match overall with
  | none => .error (.attributeError "overall_score")
  | some v => .ok ⟨file, roundTo1 v, scores, metrics, issues, totalIssueCount issues⟩

/-- The state reached after all analyses of a successfully parsed source:
category scores, final metrics, issue buckets in append order, and the
unrounded overall score. -/
structure AnalysisState where
  scores : Scores
  metrics : Metrics
  issues : Issues
  overall : ℚ
deriving DecidableEq

def runValidAnalysis (lines : List String) (tree : List PyStmt) : AnalysisState :=
  let ns := walkModule tree
  let m0 := analyzeMetrics lines ns
  let so := analyzeStructure ns lines m0
  let eo := analyzeErrorHandling ns so.metrics.functions
  let po := analyzePerformance ns
  let co := analyzeSecurity lines ns
  let mo := analyzeMaintainability ns
  let bo := analyzeBestPractices ns
  let scores : Scores := ⟨so.score, eo.score, po.score, co.score, mo.score, bo.score⟩
  let issues : Issues :=
    ⟨co.issues, so.highs ++ eo.highs, so.meds ++ eo.meds ++ mo.meds,
     po.issues ++ mo.lows ++ bo.issues⟩
  ⟨scores, so.metrics, issues, calcOverall scores⟩

/-- The driver (`analyze`): on a parse failure, record the single critical issue and
generate the report from the constructor-initialised state; otherwise run
every analyzer and aggregate. -/
def analyze (src : Source) : Except PyError Report :=
  match src.parseResult with
  | .error e =>
      let issues : Issues := ⟨[⟨e.lineno, "Syntax Error", e.msg, .critical⟩], [], [], []⟩
      generateReport src.fileName none initScores initMetrics issues
  | .ok tree =>
      let st := runValidAnalysis src.lines tree
      generateReport src.fileName (some st.overall) st.scores st.metrics st.issues

/-! ## Report formatter verdict (`print_report`) -/

inductive Verdict where
  | readyExcellent
  | readyMinorWork
  | notReady
  | needsImprovement
deriving DecidableEq

/-- The production-readiness conditional chain at the end of `print_report`,
as a function of the value held by the score variable when the chain runs
and of the critical issue bucket.  Which value that variable holds is
decided by `printReportVerdict` below: the category-scores display loop
rebinds it before the chain executes. -/
def productionVerdict (score : ℚ) (critical : List Issue) : Verdict :=
  if 9 ≤ score ∧ critical = [] then .readyExcellent
  else if 7 ≤ score ∧ critical = [] then .readyMinorWork
  else if critical ≠ [] then .notReady
  else .needsImprovement

/-- The category scores in the insertion order of the scores mapping, which
is the iteration order of the category-scores display loop. -/
def scoresInOrder (s : Scores) : List ℚ :=
  [s.structure_, s.error_handling, s.performance, s.security,
   s.maintainability, s.best_practices]

/-- The verdict `print_report` actually prints for a report.  The score
variable starts as the displayed overall score, but the category-scores
display loop iterates the scores mapping with that same variable as its
item binding, so after the loop (modelled by the fold, which rebinds the
accumulator to each list element in turn) the variable holds the last
category score, best_practices; the conditional chain then runs on that. -/
def printReportVerdict (r : Report) : Verdict :=
  productionVerdict
    ((scoresInOrder r.category_scores).foldl (fun _ s => s) r.overall_score)
    r.issues.critical

/-- The net effect of the loop rebinding: the chain runs on the
best_practices score. -/
theorem printReportVerdict_eq (r : Report) :
    printReportVerdict r =
      productionVerdict r.category_scores.best_practices r.issues.critical := rfl

/-! ## Node predicates and per-node contributions

The imperative analyzer loops append issues and subtract penalties one node
at a time.  The following per-node contribution functions, together with
`catMap` and `penSum`, give the loops their closed forms, proved below. -/

def isFunctionDef : PyNode → Bool
  | .stmt (.functionDef _ _ _ _ _ _) => true
  | _ => false

def isClassDef : PyNode → Bool
  | .stmt (.classDef _ _ _ _) => true
  | _ => false

def isBareHandler : PyNode → Bool
  | .handler (.mk none _ _) => true
  | _ => false

def isLoopNode : PyNode → Bool
  | .stmt (.forStmt _ _ _ _) => true
  | .stmt (.whileStmt _ _ _) => true
  | _ => false

/-- Concatenate the per-node contributions, in node order. -/
def catMap {α : Type} (f : PyNode → List α) : List PyNode → List α
  | [] => []
  | n :: rest => f n ++ catMap f rest

/-- Sum the per-node penalties, in node order. -/
def penSum (g : PyNode → ℚ) : List PyNode → ℚ
  | [] => 0
  | n :: rest => g n + penSum g rest

/-- A fold whose step appends `f n` and subtracts `g n` computes the
concatenated contributions and the summed penalties. -/
theorem foldl_contrib
    (step : List Issue × ℚ → PyNode → List Issue × ℚ)
    (f : PyNode → List Issue) (g : PyNode → ℚ)
    (hstep : ∀ acc n, step acc n = (acc.1 ++ f n, acc.2 - g n)) :
    ∀ (ns : List PyNode) (acc : List Issue × ℚ),
      ns.foldl step acc = (acc.1 ++ catMap f ns, acc.2 - penSum g ns) := by
  intro ns
  induction ns with
  | nil => intro acc; simp [catMap, penSum]
  | cons n rest ih =>
      intro acc
      rw [List.foldl_cons, hstep, ih]
      simp [catMap, penSum, List.append_assoc, sub_sub]

/-! ### Error handling: closed form -/

def errContrib : PyNode → List Issue
  | .handler (.mk none _ lineno) => [bareExceptIssue lineno]
  | _ => []

def errPen : PyNode → ℚ
  | .handler (.mk none _ _) => 2
  | _ => 0

theorem errStep_eq (acc : List Issue × ℚ) (n : PyNode) :
    errStep acc n = (acc.1 ++ errContrib n, acc.2 - errPen n) := by
  cases n with
  | stmt s => simp [errStep, errContrib, errPen]
  | expr e => simp [errStep, errContrib, errPen]
  | handler h =>
      rcases h with ⟨ty, body, lineno⟩
      cases ty with
      | none => simp [errStep, errContrib, errPen]
      | some t => simp [errStep, errContrib, errPen]

theorem errPenSum (ns : List PyNode) :
    penSum errPen ns = 2 * (ns.countP isBareHandler : ℚ) := by
  induction ns with
  | nil => simp [penSum]
  | cons n rest ih =>
      rw [penSum, ih, List.countP_cons]
      have : errPen n = 2 * (if isBareHandler n = true then 1 else 0 : ℚ) := by
        cases n with
        | stmt s => simp [errPen, isBareHandler]
        | expr e => simp [errPen, isBareHandler]
        | handler h =>
            rcases h with ⟨ty, body, lineno⟩
            cases ty <;> simp [errPen, isBareHandler]
      rw [this]
      push_cast
      split <;> ring

/-! ### Security: closed forms -/

def dangContrib : PyNode → List Issue
  | .expr (.call (.name id _) _ lineno) =>
      if id == "eval" || id == "exec" then [dangerousIssue id lineno] else []
  | _ => []

def dangPen : PyNode → ℚ
  | .expr (.call (.name id _) _ _) =>
      if id == "eval" || id == "exec" then 3 else 0
  | _ => 0

/-- Is this node a call of a bare name eval or exec? -/
def isDangerousCall : PyNode → Bool
  | .expr (.call (.name id _) _ _) => id == "eval" || id == "exec"
  | _ => false

theorem dangStep_eq (acc : List Issue × ℚ) (n : PyNode) :
    dangStep acc n = (acc.1 ++ dangContrib n, acc.2 - dangPen n) := by
  cases n with
  | stmt s => simp [dangStep, dangContrib, dangPen]
  | handler h => simp [dangStep, dangContrib, dangPen]
  | expr e =>
      cases e with
      | call func args lineno =>
          cases func with
          | name id ln => by_cases h : (id == "eval" || id == "exec") = true <;>
              simp [dangStep, dangContrib, dangPen, h]
          | call f as ln => simp [dangStep, dangContrib, dangPen]
          | attribute_ v a ln => simp [dangStep, dangContrib, dangPen]
          | strConst s ln => simp [dangStep, dangContrib, dangPen]
          | const ln => simp [dangStep, dangContrib, dangPen]
      | name id ln => simp [dangStep, dangContrib, dangPen]
      | attribute_ v a ln => simp [dangStep, dangContrib, dangPen]
      | strConst s ln => simp [dangStep, dangContrib, dangPen]
      | const ln => simp [dangStep, dangContrib, dangPen]

theorem dangPenSum (ns : List PyNode) :
    penSum dangPen ns = 3 * (ns.countP isDangerousCall : ℚ) := by
  induction ns with
  | nil => simp [penSum]
  | cons n rest ih =>
      rw [penSum, ih, List.countP_cons]
      have : dangPen n = 3 * (if isDangerousCall n = true then 1 else 0 : ℚ) := by
        cases n with
        | stmt s => simp [dangPen, isDangerousCall]
        | handler h => simp [dangPen, isDangerousCall]
        | expr e =>
            cases e with
            | call func args lineno =>
                cases func with
                | name id ln =>
                    by_cases h : (id == "eval" || id == "exec") = true <;>
                      simp [dangPen, isDangerousCall, h]
                | call f as ln => simp [dangPen, isDangerousCall]
                | attribute_ v a ln => simp [dangPen, isDangerousCall]
                | strConst s ln => simp [dangPen, isDangerousCall]
                | const ln => simp [dangPen, isDangerousCall]
            | name id ln => simp [dangPen, isDangerousCall]
            | attribute_ v a ln => simp [dangPen, isDangerousCall]
            | strConst s ln => simp [dangPen, isDangerousCall]
            | const ln => simp [dangPen, isDangerousCall]
      rw [this]
      push_cast
      split <;> ring

/-! ### Performance: closed form -/

/-- The inner condition of the performance loop on a node: a for statement
whose walked subtree contains an append expression statement. -/
def perfHit : PyNode → Bool
  | .stmt (.forStmt target iter body lineno) =>
      (walkStmt (.forStmt target iter body lineno)).any isAppendExprStmt
  | _ => false

def perfContrib : PyNode → List Issue
  | .stmt (.forStmt target iter body lineno) =>
      if (walkStmt (.forStmt target iter body lineno)).any isAppendExprStmt then
        [listCompIssue lineno]
      else []
  | _ => []

def perfPen : PyNode → ℚ
  | .stmt (.forStmt target iter body lineno) =>
      if (walkStmt (.forStmt target iter body lineno)).any isAppendExprStmt then 0.3
      else 0
  | _ => 0

theorem perfStep_eq (acc : List Issue × ℚ) (n : PyNode) :
    perfStep acc n = (acc.1 ++ perfContrib n, acc.2 - perfPen n) := by
  cases n with
  | handler h => simp [perfStep, perfContrib, perfPen]
  | expr e => simp [perfStep, perfContrib, perfPen]
  | stmt s =>
      cases s with
      | forStmt target iter body lineno =>
          by_cases h :
              ((walkStmt (.forStmt target iter body lineno)).any isAppendExprStmt) = true <;>
            simp [perfStep, perfContrib, perfPen, h]
      | functionDef a b c d e f => simp [perfStep, perfContrib, perfPen]
      | asyncFunctionDef a b c d e f => simp [perfStep, perfContrib, perfPen]
      | classDef a b c d => simp [perfStep, perfContrib, perfPen]
      | whileStmt a b c => simp [perfStep, perfContrib, perfPen]
      | ifStmt a b c d => simp [perfStep, perfContrib, perfPen]
      | tryStmt a b c d => simp [perfStep, perfContrib, perfPen]
      | exprStmt a b => simp [perfStep, perfContrib, perfPen]
      | assign a b c => simp [perfStep, perfContrib, perfPen]
      | ret a b => simp [perfStep, perfContrib, perfPen]
      | passStmt a => simp [perfStep, perfContrib, perfPen]

theorem perfPenSum (ns : List PyNode) :
    penSum perfPen ns = 0.3 * (ns.countP perfHit : ℚ) := by
  induction ns with
  | nil => simp [penSum]
  | cons n rest ih =>
      rw [penSum, ih, List.countP_cons]
      have : perfPen n = 0.3 * (if perfHit n = true then 1 else 0 : ℚ) := by
        cases n with
        | handler h => simp [perfPen, perfHit]
        | expr e => simp [perfPen, perfHit]
        | stmt s =>
            cases s with
            | forStmt target iter body lineno =>
                by_cases h :
                    ((walkStmt (.forStmt target iter body lineno)).any isAppendExprStmt)
                      = true <;>
                  simp [perfPen, perfHit, h]
            | functionDef a b c d e f => simp [perfPen, perfHit]
            | asyncFunctionDef a b c d e f => simp [perfPen, perfHit]
            | classDef a b c d => simp [perfPen, perfHit]
            | whileStmt a b c => simp [perfPen, perfHit]
            | ifStmt a b c d => simp [perfPen, perfHit]
            | tryStmt a b c d => simp [perfPen, perfHit]
            | exprStmt a b => simp [perfPen, perfHit]
            | assign a b c => simp [perfPen, perfHit]
            | ret a b => simp [perfPen, perfHit]
            | passStmt a => simp [perfPen, perfHit]
      rw [this]
      push_cast
      split <;> ring

/-! ### Best practices: closed forms -/

def printContrib : PyNode → List Issue
  | .expr (.call (.name id _) _ lineno) =>
      if id == "print" then [printIssue lineno] else []
  | _ => []

def printPen : PyNode → ℚ
  | .expr (.call (.name id _) _ _) => if id == "print" then 0.2 else 0
  | _ => 0

theorem printStep_eq (acc : List Issue × ℚ) (n : PyNode) :
    printStep acc n = (acc.1 ++ printContrib n, acc.2 - printPen n) := by
  cases n with
  | stmt s => simp [printStep, printContrib, printPen]
  | handler h => simp [printStep, printContrib, printPen]
  | expr e =>
      cases e with
      | call func args lineno =>
          cases func with
          | name id ln => by_cases h : (id == "print") = true <;>
              simp [printStep, printContrib, printPen, h]
          | call f as ln => simp [printStep, printContrib, printPen]
          | attribute_ v a ln => simp [printStep, printContrib, printPen]
          | strConst s ln => simp [printStep, printContrib, printPen]
          | const ln => simp [printStep, printContrib, printPen]
      | name id ln => simp [printStep, printContrib, printPen]
      | attribute_ v a ln => simp [printStep, printContrib, printPen]
      | strConst s ln => simp [printStep, printContrib, printPen]
      | const ln => simp [printStep, printContrib, printPen]

/-- The condition of the naming loop on a function definition node. -/
def badName : PyNode → Bool
  | .stmt (.functionDef name _ _ _ _ _) => !pyIsLower name && name != "__init__"
  | _ => false

def namingContrib : PyNode → List Issue
  | .stmt (.functionDef name _ _ _ lineno _) =>
      if !pyIsLower name && name != "__init__" then [namingIssue name lineno] else []
  | _ => []

def namingPen : PyNode → ℚ
  | .stmt (.functionDef name _ _ _ _ _) =>
      if !pyIsLower name && name != "__init__" then 0.3 else 0
  | _ => 0

theorem namingStep_eq (acc : List Issue × ℚ) (n : PyNode) :
    namingStep acc n = (acc.1 ++ namingContrib n, acc.2 - namingPen n) := by
  cases n with
  | handler h => simp [namingStep, namingContrib, namingPen]
  | expr e => simp [namingStep, namingContrib, namingPen]
  | stmt s =>
      cases s with
      | functionDef name args body returns lineno endLineno =>
          by_cases h : (!pyIsLower name && name != "__init__") = true <;>
            simp [namingStep, namingContrib, namingPen, h]
      | asyncFunctionDef a b c d e f => simp [namingStep, namingContrib, namingPen]
      | classDef a b c d => simp [namingStep, namingContrib, namingPen]
      | forStmt a b c d => simp [namingStep, namingContrib, namingPen]
      | whileStmt a b c => simp [namingStep, namingContrib, namingPen]
      | ifStmt a b c d => simp [namingStep, namingContrib, namingPen]
      | tryStmt a b c d => simp [namingStep, namingContrib, namingPen]
      | exprStmt a b => simp [namingStep, namingContrib, namingPen]
      | assign a b c => simp [namingStep, namingContrib, namingPen]
      | ret a b => simp [namingStep, namingContrib, namingPen]
      | passStmt a => simp [namingStep, namingContrib, namingPen]

/-! ### Secret scan: closed forms -/

/-- How many of the four patterns match one line. -/
def secretMatchCount (line : String) : Nat :=
  (secretPatterns.filter (fun kw => reSearchSecret kw line)).length

/-- The issues the line loop emits, starting at line number `i`. -/
def secretIssuesFrom : Nat → List String → List Issue
  | _, [] => []
  | i, line :: rest =>
      (secretPatterns.filter (fun kw => reSearchSecret kw line)).map
          (fun _ => mkSecretIssue i)
        ++ secretIssuesFrom (i + 1) rest

/-- Total pattern matches over all lines. -/
def totalSecretMatches : List String → Nat
  | [] => 0
  | line :: rest => secretMatchCount line + totalSecretMatches rest

theorem secretScan_eq (lines : List String) :
    ∀ (i : Nat) (acc : List Issue × ℚ),
      secretScan i lines acc =
        (acc.1 ++ secretIssuesFrom i lines,
         acc.2 - 3 * (totalSecretMatches lines : ℚ)) := by
  induction lines with
  | nil => intro i acc; simp [secretScan, secretIssuesFrom, totalSecretMatches]
  | cons line rest ih =>
      intro i acc
      rw [secretScan, ih]
      refine Prod.ext ?_ ?_
      · simp [secretIssuesFrom, List.append_assoc]
      · simp only [totalSecretMatches, secretMatchCount]
        push_cast
        ring

/-! ### Metric counts: closed forms -/

theorem defCountStep_eq (acc : Nat × Nat) (n : PyNode) :
    defCountStep acc n =
      (acc.1 + (if isFunctionDef n then 1 else 0),
       acc.2 + (if isClassDef n then 1 else 0)) := by
  cases n with
  | handler h => simp [defCountStep, isFunctionDef, isClassDef]
  | expr e => simp [defCountStep, isFunctionDef, isClassDef]
  | stmt s => cases s <;> simp [defCountStep, isFunctionDef, isClassDef]

theorem defCount_fold (ns : List PyNode) :
    ∀ acc : Nat × Nat,
      ns.foldl defCountStep acc =
        (acc.1 + ns.countP isFunctionDef, acc.2 + ns.countP isClassDef) := by
  induction ns with
  | nil => intro acc; simp
  | cons n rest ih =>
      intro acc
      rw [List.foldl_cons, defCountStep_eq, ih, List.countP_cons, List.countP_cons]
      simp only [Prod.mk.injEq]
      constructor <;> split <;> omega

/-- The functions metric is the number of (non-async) function definition
nodes in the walked tree. -/
theorem analyzeMetrics_functions (lines : List String) (ns : List PyNode) :
    (analyzeMetrics lines ns).functions = ns.countP isFunctionDef := by
  simp [analyzeMetrics, defCount_fold]

theorem analyzeMetrics_classes (lines : List String) (ns : List PyNode) :
    (analyzeMetrics lines ns).classes = ns.countP isClassDef := by
  simp [analyzeMetrics, defCount_fold]

/-! ### Docstring and type-hint counts: closed forms -/

/-- A function definition node whose leading docstring is truthy. -/
def hasDocstring : PyNode → Bool
  | .stmt (.functionDef _ _ body _ _ _) => truthyDocstring body
  | _ => false

/-- A function definition node with a return hint or a hinted parameter. -/
def hasTypeHints : PyNode → Bool
  | .stmt (.functionDef _ args _ returns _ _) => returns || args.any (fun a => a.annotated)
  | _ => false

theorem docStep_eq (acc : Nat × Nat) (n : PyNode) :
    docStep acc n =
      (acc.1 + (if isFunctionDef n then 1 else 0),
       acc.2 + (if hasDocstring n then 1 else 0)) := by
  cases n with
  | handler h => simp [docStep, isFunctionDef, hasDocstring]
  | expr e => simp [docStep, isFunctionDef, hasDocstring]
  | stmt s =>
      cases s with
      | functionDef name args body returns lineno endLineno =>
          by_cases h : truthyDocstring body = true <;>
            simp [docStep, isFunctionDef, hasDocstring, h]
      | asyncFunctionDef a b c d e f => simp [docStep, isFunctionDef, hasDocstring]
      | classDef a b c d => simp [docStep, isFunctionDef, hasDocstring]
      | forStmt a b c d => simp [docStep, isFunctionDef, hasDocstring]
      | whileStmt a b c => simp [docStep, isFunctionDef, hasDocstring]
      | ifStmt a b c d => simp [docStep, isFunctionDef, hasDocstring]
      | tryStmt a b c d => simp [docStep, isFunctionDef, hasDocstring]
      | exprStmt a b => simp [docStep, isFunctionDef, hasDocstring]
      | assign a b c => simp [docStep, isFunctionDef, hasDocstring]
      | ret a b => simp [docStep, isFunctionDef, hasDocstring]
      | passStmt a => simp [docStep, isFunctionDef, hasDocstring]

theorem docStep_fold (ns : List PyNode) :
    ∀ acc : Nat × Nat,
      ns.foldl docStep acc =
        (acc.1 + ns.countP isFunctionDef, acc.2 + ns.countP hasDocstring) := by
  induction ns with
  | nil => intro acc; simp
  | cons n rest ih =>
      intro acc
      rw [List.foldl_cons, docStep_eq, ih, List.countP_cons, List.countP_cons]
      simp only [Prod.mk.injEq]
      constructor <;> split <;> omega

theorem hintStep_eq (acc : Nat) (n : PyNode) :
    hintStep acc n = acc + (if hasTypeHints n then 1 else 0) := by
  cases n with
  | handler h => simp [hintStep, hasTypeHints]
  | expr e => simp [hintStep, hasTypeHints]
  | stmt s =>
      cases s with
      | functionDef name args body returns lineno endLineno =>
          by_cases h : (returns || args.any (fun a => a.annotated)) = true <;>
            simp [hintStep, hasTypeHints, h]
      | asyncFunctionDef a b c d e f => simp [hintStep, hasTypeHints]
      | classDef a b c d => simp [hintStep, hasTypeHints]
      | forStmt a b c d => simp [hintStep, hasTypeHints]
      | whileStmt a b c => simp [hintStep, hasTypeHints]
      | ifStmt a b c d => simp [hintStep, hasTypeHints]
      | tryStmt a b c d => simp [hintStep, hasTypeHints]
      | exprStmt a b => simp [hintStep, hasTypeHints]
      | assign a b c => simp [hintStep, hasTypeHints]
      | ret a b => simp [hintStep, hasTypeHints]
      | passStmt a => simp [hintStep, hasTypeHints]

theorem hintStep_fold (ns : List PyNode) :
    ∀ acc : Nat, ns.foldl hintStep acc = acc + ns.countP hasTypeHints := by
  induction ns with
  | nil => intro acc; simp
  | cons n rest ih =>
      intro acc
      rw [List.foldl_cons, hintStep_eq, ih, List.countP_cons]
      split <;> omega

/-! ### Structure: closed forms -/

def structHighContrib : PyNode → List Issue
  | .stmt (.functionDef name _ _ _ lineno endLineno) =>
      if 100 < (endLineno : Int) - (lineno : Int) then
        [longFunctionHigh name ((endLineno : Int) - (lineno : Int)) lineno]
      else []
  | _ => []

def structMedContrib : PyNode → List Issue
  | .stmt (.functionDef name _ _ _ lineno endLineno) =>
      if 100 < (endLineno : Int) - (lineno : Int) then []
      else if 50 < (endLineno : Int) - (lineno : Int) then
        [longFunctionMed name ((endLineno : Int) - (lineno : Int)) lineno]
      else []
  | _ => []

def lengthContrib : PyNode → List Int
  | .stmt (.functionDef _ _ _ _ lineno endLineno) => [(endLineno : Int) - (lineno : Int)]
  | _ => []

def structPenOf : PyNode → ℚ
  | .stmt (.functionDef _ _ _ _ lineno endLineno) =>
      if 100 < (endLineno : Int) - (lineno : Int) then 1
      else if 50 < (endLineno : Int) - (lineno : Int) then 0.5
      else 0
  | _ => 0

theorem structStep_eq (acc : StructAcc) (n : PyNode) :
    structStep acc n =
      ⟨acc.highs ++ structHighContrib n, acc.meds ++ structMedContrib n,
       acc.lengths ++ lengthContrib n, acc.score - structPenOf n⟩ := by
  cases n with
  | handler h => simp [structStep, structHighContrib, structMedContrib, lengthContrib, structPenOf]
  | expr e => simp [structStep, structHighContrib, structMedContrib, lengthContrib, structPenOf]
  | stmt s =>
      cases s with
      | functionDef name args body returns lineno endLineno =>
          by_cases h1 : 100 < (endLineno : Int) - (lineno : Int)
          · simp [structStep, structHighContrib, structMedContrib, lengthContrib, structPenOf, h1]
          · by_cases h2 : 50 < (endLineno : Int) - (lineno : Int) <;>
              simp [structStep, structHighContrib, structMedContrib, lengthContrib,
                structPenOf, h1, h2]
      | asyncFunctionDef a b c d e f =>
          simp [structStep, structHighContrib, structMedContrib, lengthContrib, structPenOf]
      | classDef a b c d =>
          simp [structStep, structHighContrib, structMedContrib, lengthContrib, structPenOf]
      | forStmt a b c d =>
          simp [structStep, structHighContrib, structMedContrib, lengthContrib, structPenOf]
      | whileStmt a b c =>
          simp [structStep, structHighContrib, structMedContrib, lengthContrib, structPenOf]
      | ifStmt a b c d =>
          simp [structStep, structHighContrib, structMedContrib, lengthContrib, structPenOf]
      | tryStmt a b c d =>
          simp [structStep, structHighContrib, structMedContrib, lengthContrib, structPenOf]
      | exprStmt a b =>
          simp [structStep, structHighContrib, structMedContrib, lengthContrib, structPenOf]
      | assign a b c =>
          simp [structStep, structHighContrib, structMedContrib, lengthContrib, structPenOf]
      | ret a b =>
          simp [structStep, structHighContrib, structMedContrib, lengthContrib, structPenOf]
      | passStmt a =>
          simp [structStep, structHighContrib, structMedContrib, lengthContrib, structPenOf]

theorem structFold_eq (ns : List PyNode) :
    ∀ acc : StructAcc,
      ns.foldl structStep acc =
        ⟨acc.highs ++ catMap structHighContrib ns, acc.meds ++ catMap structMedContrib ns,
         acc.lengths ++ catMap lengthContrib ns, acc.score - penSum structPenOf ns⟩ := by
  induction ns with
  | nil => intro acc; simp [catMap, penSum]
  | cons n rest ih =>
      intro acc
      rw [List.foldl_cons, structStep_eq, ih]
      simp [catMap, penSum, List.append_assoc, sub_sub]

theorem structPenOf_nonneg (n : PyNode) : 0 ≤ structPenOf n := by
  cases n with
  | handler h => simp [structPenOf]
  | expr e => simp [structPenOf]
  | stmt s => cases s <;> simp [structPenOf] <;> split <;> norm_num <;> split <;> norm_num

theorem penSum_nonneg (g : PyNode → ℚ) (hg : ∀ n, 0 ≤ g n) (ns : List PyNode) :
    0 ≤ penSum g ns := by
  induction ns with
  | nil => simp [penSum]
  | cons n rest ih => rw [penSum]; have := hg n; linarith

/-! ### Clamp lemmas -/

theorem pyMax_nonneg (x : ℚ) : 0 ≤ pyMax 0 x := by
  unfold pyMax; split <;> linarith

theorem pyMax_le (x c : ℚ) (h0 : 0 ≤ c) (hx : x ≤ c) : pyMax 0 x ≤ c := by
  unfold pyMax; split <;> linarith

theorem pyMax_of_nonneg (x : ℚ) (h : 0 ≤ x) : pyMax 0 x = x := by
  unfold pyMax; split <;> linarith

/-! ## Analyzer-level closed forms -/

theorem analyzeErrorHandling_highs (ns : List PyNode) (functions : Nat) :
    (analyzeErrorHandling ns functions).highs = catMap errContrib ns := by
  unfold analyzeErrorHandling
  dsimp only
  split <;> simp [foldl_contrib errStep errContrib errPen errStep_eq]

theorem analyzeErrorHandling_meds (ns : List PyNode) (functions : Nat) :
    (analyzeErrorHandling ns functions).meds =
      (if ns.countP isTryNode = 0 ∧ 0 < functions then [noErrorHandlingIssue] else []) := by
  unfold analyzeErrorHandling
  dsimp only
  split
  next h => rfl
  next h => rfl

theorem analyzeErrorHandling_score (ns : List PyNode) (functions : Nat) :
    (analyzeErrorHandling ns functions).score =
      pyMax 0 ((10 : ℚ) - 2 * (ns.countP isBareHandler : ℚ)
        - (if ns.countP isTryNode = 0 ∧ 0 < functions then 2 else 0)) := by
  unfold analyzeErrorHandling
  dsimp only
  split
  next h =>
    simp [foldl_contrib errStep errContrib errPen errStep_eq, errPenSum, sub_sub]
  next h =>
    simp [foldl_contrib errStep errContrib errPen errStep_eq, errPenSum]

theorem analyzePerformance_eq (ns : List PyNode) :
    analyzePerformance ns =
      ⟨catMap perfContrib ns, pyMax 0 ((10 : ℚ) - 0.3 * (ns.countP perfHit : ℚ))⟩ := by
  unfold analyzePerformance
  rw [foldl_contrib perfStep perfContrib perfPen perfStep_eq, perfPenSum]
  simp

theorem analyzeSecurity_eq (lines : List String) (ns : List PyNode) :
    analyzeSecurity lines ns =
      ⟨secretIssuesFrom 1 lines ++ catMap dangContrib ns,
       pyMax 0 ((10 : ℚ) - 3 * (totalSecretMatches lines : ℚ)
         - 3 * (ns.countP isDangerousCall : ℚ))⟩ := by
  unfold analyzeSecurity
  simp only [secretScan_eq, foldl_contrib dangStep dangContrib dangPen dangStep_eq,
    dangPenSum]
  simp [sub_sub]

def isPrintCall : PyNode → Bool
  | .expr (.call (.name id _) _ _) => id == "print"
  | _ => false

theorem printPenSum (ns : List PyNode) :
    penSum printPen ns = 0.2 * (ns.countP isPrintCall : ℚ) := by
  induction ns with
  | nil => simp [penSum]
  | cons n rest ih =>
      rw [penSum, ih, List.countP_cons]
      have : printPen n = 0.2 * (if isPrintCall n = true then 1 else 0 : ℚ) := by
        cases n with
        | stmt s => simp [printPen, isPrintCall]
        | handler h => simp [printPen, isPrintCall]
        | expr e =>
            cases e with
            | call func args lineno =>
                cases func with
                | name id ln =>
                    by_cases h : (id == "print") = true <;> simp [printPen, isPrintCall, h]
                | call f as ln => simp [printPen, isPrintCall]
                | attribute_ v a ln => simp [printPen, isPrintCall]
                | strConst s ln => simp [printPen, isPrintCall]
                | const ln => simp [printPen, isPrintCall]
            | name id ln => simp [printPen, isPrintCall]
            | attribute_ v a ln => simp [printPen, isPrintCall]
            | strConst s ln => simp [printPen, isPrintCall]
            | const ln => simp [printPen, isPrintCall]
      rw [this]
      push_cast
      split <;> ring

theorem namingPenSum (ns : List PyNode) :
    penSum namingPen ns = 0.3 * (ns.countP badName : ℚ) := by
  induction ns with
  | nil => simp [penSum]
  | cons n rest ih =>
      rw [penSum, ih, List.countP_cons]
      have : namingPen n = 0.3 * (if badName n = true then 1 else 0 : ℚ) := by
        cases n with
        | handler h => simp [namingPen, badName]
        | expr e => simp [namingPen, badName]
        | stmt s =>
            cases s with
            | functionDef name args body returns lineno endLineno =>
                by_cases h : (!pyIsLower name && name != "__init__") = true <;>
                  simp [namingPen, badName, h]
            | asyncFunctionDef a b c d e f => simp [namingPen, badName]
            | classDef a b c d => simp [namingPen, badName]
            | forStmt a b c d => simp [namingPen, badName]
            | whileStmt a b c => simp [namingPen, badName]
            | ifStmt a b c d => simp [namingPen, badName]
            | tryStmt a b c d => simp [namingPen, badName]
            | exprStmt a b => simp [namingPen, badName]
            | assign a b c => simp [namingPen, badName]
            | ret a b => simp [namingPen, badName]
            | passStmt a => simp [namingPen, badName]
      rw [this]
      push_cast
      split <;> ring

theorem analyzeBestPractices_eq (ns : List PyNode) :
    analyzeBestPractices ns =
      ⟨catMap printContrib ns ++ catMap namingContrib ns,
       pyMax 0 ((10 : ℚ) - 0.2 * (ns.countP isPrintCall : ℚ)
         - 0.3 * (ns.countP badName : ℚ))⟩ := by
  unfold analyzeBestPractices
  simp only [foldl_contrib printStep printContrib printPen printStep_eq, printPenSum,
    foldl_contrib namingStep namingContrib namingPen namingStep_eq, namingPenSum]
  simp [sub_sub, List.append_assoc]

theorem analyzeStructure_score (ns : List PyNode) (lines : List String) (m : Metrics) :
    (analyzeStructure ns lines m).score =
      pyMax 0 ((10 : ℚ) - penSum structPenOf ns
        - (if checkDuplication lines then 1 else 0)) := by
  unfold analyzeStructure
  rw [structFold_eq]
  by_cases h : checkDuplication lines = true <;> simp [h, sub_sub]

theorem analyzeStructure_highs (ns : List PyNode) (lines : List String) (m : Metrics) :
    (analyzeStructure ns lines m).highs = catMap structHighContrib ns := by
  unfold analyzeStructure
  rw [structFold_eq]
  by_cases h : checkDuplication lines = true <;> simp [h]

theorem analyzeStructure_meds (ns : List PyNode) (lines : List String) (m : Metrics) :
    (analyzeStructure ns lines m).meds =
      catMap structMedContrib ns ++ (if checkDuplication lines then [dupIssue] else []) := by
  unfold analyzeStructure
  rw [structFold_eq]
  by_cases h : checkDuplication lines = true <;> simp [h]

theorem analyzeStructure_metrics_complexity (ns : List PyNode) (lines : List String)
    (m : Metrics) : (analyzeStructure ns lines m).metrics.complexity = m.complexity := by
  unfold analyzeStructure
  rw [structFold_eq]
  rcases hl : catMap lengthContrib ns with _ | ⟨l, ls⟩ <;>
    by_cases h : checkDuplication lines = true <;> simp [h, hl]

theorem analyzeStructure_metrics_of_no_functions (ns : List PyNode) (lines : List String)
    (m : Metrics) (h : catMap lengthContrib ns = []) :
    (analyzeStructure ns lines m).metrics = m := by
  unfold analyzeStructure
  rw [structFold_eq]
  by_cases hd : checkDuplication lines = true <;> simp [hd, h]

theorem analyzeMaintainability_eq (ns : List PyNode) :
    analyzeMaintainability ns =
      ⟨(if 0 < ns.countP isFunctionDef ∧
            ((ns.countP hasDocstring : ℚ) / (ns.countP isFunctionDef : ℚ)) * 100 < 50 then
          [lowDocIssue (pyRound
            (((ns.countP hasDocstring : ℚ) / (ns.countP isFunctionDef : ℚ)) * 100))]
        else []),
       (if 0 < ns.countP isFunctionDef ∧
            ((ns.countP hasTypeHints : ℚ) / (ns.countP isFunctionDef : ℚ)) * 100 < 30 then
          [missingHintsIssue (pyRound
            (((ns.countP hasTypeHints : ℚ) / (ns.countP isFunctionDef : ℚ)) * 100))]
        else []),
       pyMax 0 ((10 : ℚ)
         - (if 0 < ns.countP isFunctionDef ∧
              ((ns.countP hasDocstring : ℚ) / (ns.countP isFunctionDef : ℚ)) * 100 < 50
            then 2 else 0)
         - (if 0 < ns.countP isFunctionDef ∧
              ((ns.countP hasTypeHints : ℚ) / (ns.countP isFunctionDef : ℚ)) * 100 < 30
            then 1 else 0))⟩ := by
  unfold analyzeMaintainability
  rw [docStep_fold, hintStep_fold]
  by_cases hF : 0 < ns.countP isFunctionDef
  · by_cases hdoc :
        ((ns.countP hasDocstring : ℚ) / (ns.countP isFunctionDef : ℚ)) * 100 < 50
    · by_cases hhint :
          ((ns.countP hasTypeHints : ℚ) / (ns.countP isFunctionDef : ℚ)) * 100 < 30 <;>
        simp [hF, hdoc, hhint] <;> try norm_num
    · by_cases hhint :
          ((ns.countP hasTypeHints : ℚ) / (ns.countP isFunctionDef : ℚ)) * 100 < 30 <;>
        simp [hF, hdoc, hhint] <;> try norm_num
  · simp [hF]

/-! ## The performance check against the structural body predicate -/

/-- The claim-side reading of the for-loop heuristic: the loop body contains,
at some nesting depth, an expression statement calling a method named append.
`walkStmts body` enumerates exactly the nodes nested in the body. -/
def bodyContainsAppend (body : List PyStmt) : Bool :=
  (walkStmts body).any isAppendExprStmt

theorem isAppendExprStmt_expr (e : PyExpr) : isAppendExprStmt (.expr e) = false := rfl

theorem map_expr_any_isAppend (es : List PyExpr) :
    (es.map PyNode.expr).any isAppendExprStmt = false := by
  induction es with
  | nil => rfl
  | cons e rest ih => simp [ih, isAppendExprStmt_expr]

/-- An expression statement can only occur among the body statements of a
for loop, so the subtree test of the performance heuristic coincides with
the structural body predicate. -/
theorem perfHit_forStmt (target iter : PyExpr) (body : List PyStmt) (lineno : Nat) :
    perfHit (.stmt (.forStmt target iter body lineno)) = bodyContainsAppend body := by
  show (walkStmt (.forStmt target iter body lineno)).any isAppendExprStmt =
    (walkStmts body).any isAppendExprStmt
  rw [walkStmt.eq_def]
  simp [List.any_append, map_expr_any_isAppend, isAppendExprStmt]

theorem catMap_congr (f g : PyNode → List Issue) (h : ∀ n, f n = g n) :
    ∀ ns : List PyNode, catMap f ns = catMap g ns := by
  intro ns
  induction ns with
  | nil => rfl
  | cons n rest ih => rw [catMap, catMap, h, ih]

/-! ## Counting hardcoded-secret issues per line -/

theorem secretMatchCount_empty : secretMatchCount "" = 0 := by decide

theorem secretIssuesFrom_filter (lines : List String) :
    ∀ k j : Nat,
      ((secretIssuesFrom k lines).filter
          (fun i => i.issue == "Hardcoded Secret" && i.line == j)).length =
        if k ≤ j then secretMatchCount (lines.getD (j - k) "") else 0 := by
  induction lines with
  | nil =>
      intro k j
      simp [secretIssuesFrom, secretMatchCount_empty]
  | cons line rest ih =>
      intro k j
      rw [secretIssuesFrom, List.filter_append, List.length_append, List.filter_map,
        List.length_map]
      by_cases hkj : k = j
      · subst hkj
        have hp : ((fun i => i.issue == "Hardcoded Secret" && i.line == k) ∘
            (fun _ : String => mkSecretIssue k)) = fun _ => true := by
          funext x
          simp [mkSecretIssue]
        rw [hp, List.filter_true, ih]
        have hnot : ¬ (k + 1 ≤ k) := by omega
        rw [if_neg hnot, if_pos (le_refl k)]
        simp [secretMatchCount]
      · have hp : ((fun i => i.issue == "Hardcoded Secret" && i.line == j) ∘
            (fun _ : String => mkSecretIssue k)) = fun _ => false := by
          funext x
          simp [mkSecretIssue, hkj]
        rw [hp, List.filter_false, ih]
        by_cases hk1 : k + 1 ≤ j
        · rw [if_pos hk1, if_pos (by omega : k ≤ j)]
          have hidx : j - k = (j - (k + 1)) + 1 := by omega
          rw [hidx]
          simp
        · have hk : ¬ (k ≤ j) := by omega
          rw [if_neg hk1, if_neg hk]
          simp

theorem dangContrib_filter (ns : List PyNode) (j : Nat) :
    (catMap dangContrib ns).filter
        (fun i => i.issue == "Hardcoded Secret" && i.line == j) = [] := by
  induction ns with
  | nil => rfl
  | cons n rest ih =>
      rw [catMap, List.filter_append, ih]
      have hone : (dangContrib n).filter
          (fun i => i.issue == "Hardcoded Secret" && i.line == j) = [] := by
        have hs : ("Dangerous Function" == "Hardcoded Secret") = false := by decide
        cases n with
        | stmt s => rfl
        | handler h => rfl
        | expr e =>
            cases e with
            | call func args lineno =>
                cases func with
                | name id ln =>
                    by_cases hid : (id == "eval" || id == "exec") = true <;>
                      simp [dangContrib, hid, dangerousIssue, hs]
                | call f as ln => rfl
                | attribute_ v a ln => rfl
                | strConst s ln => rfl
                | const ln => rfl
            | name id ln => rfl
            | attribute_ v a ln => rfl
            | strConst s ln => rfl
            | const ln => rfl
      rw [hone]
      simp

/-! ## Score bounds -/

theorem structScore_bounds (ns : List PyNode) (lines : List String) (m : Metrics) :
    0 ≤ (analyzeStructure ns lines m).score ∧ (analyzeStructure ns lines m).score ≤ 10 := by
  rw [analyzeStructure_score]
  refine ⟨pyMax_nonneg _, pyMax_le _ _ (by norm_num) ?_⟩
  have h1 := penSum_nonneg structPenOf structPenOf_nonneg ns
  have h2 : (0 : ℚ) ≤ (if checkDuplication lines then 1 else 0) := by split <;> norm_num
  linarith

theorem errScore_bounds (ns : List PyNode) (functions : Nat) :
    0 ≤ (analyzeErrorHandling ns functions).score ∧
      (analyzeErrorHandling ns functions).score ≤ 10 := by
  rw [analyzeErrorHandling_score]
  refine ⟨pyMax_nonneg _, pyMax_le _ _ (by norm_num) ?_⟩
  have h1 : (0 : ℚ) ≤ (ns.countP isBareHandler : ℚ) := by positivity
  have h2 : (0 : ℚ) ≤
      (if ns.countP isTryNode = 0 ∧ 0 < functions then (2 : ℚ) else 0) := by
    split <;> norm_num
  linarith

theorem perfScore_bounds (ns : List PyNode) :
    0 ≤ (analyzePerformance ns).score ∧ (analyzePerformance ns).score ≤ 10 := by
  rw [analyzePerformance_eq]
  refine ⟨pyMax_nonneg _, pyMax_le _ _ (by norm_num) ?_⟩
  have h1 : (0 : ℚ) ≤ (ns.countP perfHit : ℚ) := by positivity
  nlinarith

theorem secScore_bounds (lines : List String) (ns : List PyNode) :
    0 ≤ (analyzeSecurity lines ns).score ∧ (analyzeSecurity lines ns).score ≤ 10 := by
  rw [analyzeSecurity_eq]
  refine ⟨pyMax_nonneg _, pyMax_le _ _ (by norm_num) ?_⟩
  have h1 : (0 : ℚ) ≤ (totalSecretMatches lines : ℚ) := by positivity
  have h2 : (0 : ℚ) ≤ (ns.countP isDangerousCall : ℚ) := by positivity
  linarith

theorem maintScore_bounds (ns : List PyNode) :
    0 ≤ (analyzeMaintainability ns).score ∧ (analyzeMaintainability ns).score ≤ 10 := by
  rw [analyzeMaintainability_eq]
  refine ⟨pyMax_nonneg _, pyMax_le _ _ (by norm_num) ?_⟩
  have h1 : (0 : ℚ) ≤ (if 0 < ns.countP isFunctionDef ∧
      ((ns.countP hasDocstring : ℚ) / (ns.countP isFunctionDef : ℚ)) * 100 < 50
      then (2 : ℚ) else 0) := by split <;> norm_num
  have h2 : (0 : ℚ) ≤ (if 0 < ns.countP isFunctionDef ∧
      ((ns.countP hasTypeHints : ℚ) / (ns.countP isFunctionDef : ℚ)) * 100 < 30
      then (1 : ℚ) else 0) := by split <;> norm_num
  linarith

theorem bpScore_bounds (ns : List PyNode) :
    0 ≤ (analyzeBestPractices ns).score ∧ (analyzeBestPractices ns).score ≤ 10 := by
  rw [analyzeBestPractices_eq]
  refine ⟨pyMax_nonneg _, pyMax_le _ _ (by norm_num) ?_⟩
  have h1 : (0 : ℚ) ≤ (ns.countP isPrintCall : ℚ) := by positivity
  have h2 : (0 : ℚ) ≤ (ns.countP badName : ℚ) := by positivity
  nlinarith

/-- A category score within the documented range. -/
def scoreInRange (x : ℚ) : Prop := 0 ≤ x ∧ x ≤ 10

/-! ## Concrete example inputs -/

/-- A source text that fails to parse (for example `def f(:`). -/
def exBadSrc : Source :=
  ⟨"bad.py", ["def f(:"], .error ⟨"invalid syntax (bad.py, line 1)", 1⟩⟩

/-- The tree of `def f():` / `    pass`: one function, no docstring, no
type hints. -/
def exTree7 : List PyStmt := [.functionDef "f" [] [.passStmt 2] false 1 2]

def exLines7 : List String := ["def f():", "    pass"]

/-- A while-loop whose body is exactly one append expression statement. -/
def exWhileBody : List PyStmt :=
  [.exprStmt (.call (.attribute_ (.name "results" 2) "append" 2) [.const 2] 2) 2]

def exWhileTree : List PyStmt := [.whileStmt (.const 1) exWhileBody 1]

/-- A module whose only function is an async definition containing a
bad-case name, so that every function-based check has something to miss. -/
def exTree9 : List PyStmt :=
  [.asyncFunctionDef "BadName" [] [.passStmt 2] false 1 3]

def exLines9 : List String := ["async def BadName():", "    pass", ""]

/-- The empty module: parses, contains nothing. -/
def exSrc10 : Source := ⟨"empty.py", [], .ok []⟩

/-- The report produced for the empty module, extracted from the run. -/
def exReport10 : Report :=
  match analyze exSrc10 with
  | .ok r => r
  | .error _ => ⟨"", 0, initScores, initMetrics, ⟨[], [], [], []⟩, 0⟩

/-! ## Claims -/

/-- C1.  The claim says that on a parse failure `analyze` returns (rather
than raises) a Report carrying the single critical Syntax Error issue,
zero metrics and zero scores.  The code on this path calls
`generate_report`, which reads `self.overall_score`; that attribute is
assigned only by `_calculate_scores`, which the parse-failure path skips,
so the call raises AttributeError instead of returning: for every source
whose parse fails, the embedded `analyze` yields the attribute error. -/
theorem analyze_parse_failure_attribute_error (file : String) (lines : List String)
    (e : SynErr) :
    analyze ⟨file, lines, .error e⟩ = .error (.attributeError "overall_score") := rfl

theorem penSum_eq_zero (g : PyNode → ℚ) (ns : List PyNode)
    (h : ∀ n ∈ ns, g n = 0) : penSum g ns = 0 := by
  induction ns with
  | nil => rfl
  | cons n rest ih =>
      rw [penSum, h n (List.mem_cons_self n rest),
        ih fun x hx => h x (List.mem_cons_of_mem n hx)]
      norm_num

theorem structPenOf_zero (n : PyNode) (h : isFunctionDef n = false) :
    structPenOf n = 0 := by
  cases n with
  | handler x => rfl
  | expr x => rfl
  | stmt s => cases s <;> first | rfl | simp [isFunctionDef] at h

/-- A module of twenty top-level print calls, one per line: every category
stays at 10 except best practices, which drops to 10 - 20 times 0.2 = 6. -/
def exTree2 : List PyStmt :=
  (List.range 20).map fun i =>
    .exprStmt (.call (.name "print" (i + 1)) [.strConst "x" (i + 1)] (i + 1)) (i + 1)

def exLines2 : List String := List.replicate 20 "print(\"x\")"

def exSrc2 : Source := ⟨"prints.py", exLines2, .ok exTree2⟩

/-- The report produced for the twenty-print module, extracted from the run. -/
def exReport2 : Report :=
  match analyze exSrc2 with
  | .ok r => r
  | .error _ => ⟨"", 0, initScores, initMetrics, ⟨[], [], [], []⟩, 0⟩

/-- C2.  The claim says the printed verdict is a function of the overall
score and the critical issues.  It is not: the category-scores display loop
of `print_report` rebinds the score variable, so the conditional chain runs
on the last category score (best_practices) instead.  The twenty-print
module exhibits the divergence: its report has overall score 9.4 and no
critical issues, so the claimed chain would print ready-excellent, but the
program, with the variable holding best_practices = 6.0, prints
needs-improvement. -/
theorem verdict_shadowing_bug :
    analyze exSrc2 = .ok exReport2
    ∧ exReport2.overall_score = 9.4
    ∧ exReport2.issues.critical = []
    ∧ printReportVerdict exReport2 = .needsImprovement
    ∧ productionVerdict exReport2.overall_score exReport2.issues.critical =
        .readyExcellent := by
  have hF : (walkModule exTree2).countP isFunctionDef = 0 := by decide
  have hmem : ∀ n ∈ walkModule exTree2, isFunctionDef n = false := by
    intro n hn
    simpa using List.countP_eq_zero.mp hF n hn
  have hbo : (analyzeBestPractices (walkModule exTree2)).score = 6 := by
    rw [analyzeBestPractices_eq]
    dsimp only
    have hprint : (walkModule exTree2).countP isPrintCall = 20 := by decide
    have hbad : (walkModule exTree2).countP badName = 0 := by decide
    rw [hprint, hbad]
    norm_num [pyMax]
  have hso : (analyzeStructure (walkModule exTree2) exLines2
      (analyzeMetrics exLines2 (walkModule exTree2))).score = 10 := by
    rw [analyzeStructure_score]
    have hdup : checkDuplication exLines2 = false := by decide
    have hpen : penSum structPenOf (walkModule exTree2) = 0 :=
      penSum_eq_zero _ _ fun n hn => structPenOf_zero n (hmem n hn)
    rw [hdup, hpen]
    norm_num [pyMax]
  have hfun2 : (analyzeStructure (walkModule exTree2) exLines2
      (analyzeMetrics exLines2 (walkModule exTree2))).metrics.functions = 0 := by decide
  have heo : (analyzeErrorHandling (walkModule exTree2)
      (analyzeStructure (walkModule exTree2) exLines2
        (analyzeMetrics exLines2 (walkModule exTree2))).metrics.functions).score = 10 := by
    rw [analyzeErrorHandling_score]
    have hb : (walkModule exTree2).countP isBareHandler = 0 := by decide
    rw [hb, hfun2]
    rw [if_neg (by simp)]
    norm_num [pyMax]
  have hpo : (analyzePerformance (walkModule exTree2)).score = 10 := by
    rw [analyzePerformance_eq]
    dsimp only
    have h : (walkModule exTree2).countP perfHit = 0 := by decide
    rw [h]
    norm_num [pyMax]
  have hco : (analyzeSecurity exLines2 (walkModule exTree2)).score = 10 := by
    rw [analyzeSecurity_eq]
    dsimp only
    have h1 : totalSecretMatches exLines2 = 0 := by decide
    have h2 : (walkModule exTree2).countP isDangerousCall = 0 := by decide
    rw [h1, h2]
    norm_num [pyMax]
  have hmo : (analyzeMaintainability (walkModule exTree2)).score = 10 := by
    rw [analyzeMaintainability_eq]
    dsimp only
    rw [hF]
    norm_num [pyMax]
  have hov : (runValidAnalysis exLines2 exTree2).overall = 9.4 := by
    unfold runValidAnalysis
    dsimp only
    unfold calcOverall
    dsimp only
    rw [hso, heo, hpo, hco, hmo, hbo]
    norm_num
  have hround : roundTo1 (9.4 : ℚ) = 9.4 := by
    unfold roundTo1 pyRound
    have h94 : (10 : ℚ) * 9.4 = ((94 : ℤ) : ℚ) := by norm_num
    rw [h94, Int.floor_intCast]
    norm_num
  have hov2 : exReport2.overall_score = 9.4 := by
    show roundTo1 ((runValidAnalysis exLines2 exTree2).overall) = 9.4
    rw [hov, hround]
  have hcrit : exReport2.issues.critical = [] := by decide
  refine ⟨rfl, hov2, hcrit, ?_, ?_⟩
  · rw [printReportVerdict_eq]
    have hlast : exReport2.category_scores.best_practices = 6 := by
      show (analyzeBestPractices (walkModule exTree2)).score = 6
      exact hbo
    rw [hlast, hcrit]
    unfold productionVerdict
    rw [if_neg (by norm_num), if_neg (by norm_num), if_neg (by simp)]
  · rw [hov2, hcrit]
    unfold productionVerdict
    rw [if_pos ⟨by norm_num, rfl⟩]

/-- C3.  After a successful parse, the stored overall score is exactly the
fixed weighted sum of the six category scores; every category score lies in
[0, 10], and therefore so does the overall score. -/
theorem overall_score_weighted_bounded (lines : List String) (tree : List PyStmt) :
    (runValidAnalysis lines tree).overall =
        0.20 * (runValidAnalysis lines tree).scores.structure_
      + 0.20 * (runValidAnalysis lines tree).scores.error_handling
      + 0.15 * (runValidAnalysis lines tree).scores.performance
      + 0.15 * (runValidAnalysis lines tree).scores.security
      + 0.15 * (runValidAnalysis lines tree).scores.maintainability
      + 0.15 * (runValidAnalysis lines tree).scores.best_practices
    ∧ scoreInRange (runValidAnalysis lines tree).scores.structure_
    ∧ scoreInRange (runValidAnalysis lines tree).scores.error_handling
    ∧ scoreInRange (runValidAnalysis lines tree).scores.performance
    ∧ scoreInRange (runValidAnalysis lines tree).scores.security
    ∧ scoreInRange (runValidAnalysis lines tree).scores.maintainability
    ∧ scoreInRange (runValidAnalysis lines tree).scores.best_practices
    ∧ scoreInRange (runValidAnalysis lines tree).overall := by
  have hstr := structScore_bounds (walkModule tree) lines (analyzeMetrics lines (walkModule tree))
  have herr := errScore_bounds (walkModule tree)
    (analyzeStructure (walkModule tree) lines (analyzeMetrics lines (walkModule tree))).metrics.functions
  have hperf := perfScore_bounds (walkModule tree)
  have hsec := secScore_bounds lines (walkModule tree)
  have hmaint := maintScore_bounds (walkModule tree)
  have hbp := bpScore_bounds (walkModule tree)
  unfold runValidAnalysis
  dsimp only
  unfold calcOverall
  dsimp only
  refine ⟨by ring, hstr, herr, hperf, hsec, hmaint, hbp, ?_, ?_⟩
  · obtain ⟨h1, _⟩ := hstr
    obtain ⟨h2, _⟩ := herr
    obtain ⟨h3, _⟩ := hperf
    obtain ⟨h4, _⟩ := hsec
    obtain ⟨h5, _⟩ := hmaint
    obtain ⟨h6, _⟩ := hbp
    linarith
  · obtain ⟨_, h1⟩ := hstr
    obtain ⟨_, h2⟩ := herr
    obtain ⟨_, h3⟩ := hperf
    obtain ⟨_, h4⟩ := hsec
    obtain ⟨_, h5⟩ := hmaint
    obtain ⟨_, h6⟩ := hbp
    linarith

/-! ## Helpers for the async-invisibility claim -/

theorem catMap_eq_nil {α : Type} (f : PyNode → List α) (ns : List PyNode)
    (h : ∀ n ∈ ns, f n = []) : catMap f ns = [] := by
  induction ns with
  | nil => rfl
  | cons n rest ih =>
      rw [catMap, h n (List.mem_cons_self n rest), ih fun x hx => h x (List.mem_cons_of_mem n hx)]
      rfl

theorem structHighContrib_nil (n : PyNode) (h : isFunctionDef n = false) :
    structHighContrib n = [] := by
  cases n with
  | handler x => rfl
  | expr x => rfl
  | stmt s => cases s <;> first | rfl | simp [isFunctionDef] at h

theorem lengthContrib_nil (n : PyNode) (h : isFunctionDef n = false) :
    lengthContrib n = [] := by
  cases n with
  | handler x => rfl
  | expr x => rfl
  | stmt s => cases s <;> first | rfl | simp [isFunctionDef] at h

theorem namingContrib_nil (n : PyNode) (h : isFunctionDef n = false) :
    namingContrib n = [] := by
  cases n with
  | handler x => rfl
  | expr x => rfl
  | stmt s => cases s <;> first | rfl | simp [isFunctionDef] at h

theorem printContrib_filter_naming (ns : List PyNode) :
    (catMap printContrib ns).filter (fun i => i.issue == "Naming Convention") = [] := by
  induction ns with
  | nil => rfl
  | cons n rest ih =>
      rw [catMap, List.filter_append, ih]
      have hone : (printContrib n).filter (fun i => i.issue == "Naming Convention") = [] := by
        have hs : ("Print Statement" == "Naming Convention") = false := by decide
        cases n with
        | stmt s => rfl
        | handler h => rfl
        | expr e =>
            cases e with
            | call func args lineno =>
                cases func with
                | name id ln =>
                    by_cases hid : (id == "print") = true <;>
                      simp [printContrib, hid, printIssue, hs]
                | call f as ln => rfl
                | attribute_ v a ln => rfl
                | strConst s ln => rfl
                | const ln => rfl
            | name id ln => rfl
            | attribute_ v a ln => rfl
            | strConst s ln => rfl
            | const ln => rfl
      rw [hone]
      simp

/-! ## The untouched complexity metric -/

theorem analyzeMetrics_complexity (lines : List String) (ns : List PyNode) :
    (analyzeMetrics lines ns).complexity = 0 := rfl

theorem runValidAnalysis_complexity (lines : List String) (tree : List PyStmt) :
    (runValidAnalysis lines tree).metrics.complexity = 0 := by
  unfold runValidAnalysis
  dsimp only
  rw [analyzeStructure_metrics_complexity, analyzeMetrics_complexity]

/-! ## Claims C4 to C10 -/

/-- C4.  For every line (1-based index `j + 1`), the number of critical
Hardcoded Secret issues recorded for that line equals the number of the four
patterns matching the line; each match costs 3.0, as the security score
formula shows, and the single-line example `password = "x"` produces exactly
one critical issue for line 1 and score 7.0. -/
theorem security_hardcoded_secrets (lines : List String) (ns : List PyNode) :
    (∀ j : Nat,
      ((analyzeSecurity lines ns).issues.filter
          (fun i => i.issue == "Hardcoded Secret" && i.line == j + 1)).length =
        secretMatchCount (lines.getD j ""))
    ∧ (analyzeSecurity lines ns).score =
        pyMax 0 ((10 : ℚ) - 3 * (totalSecretMatches lines : ℚ)
          - 3 * (ns.countP isDangerousCall : ℚ))
    ∧ (analyzeSecurity ["password = \"x\""] []).issues = [mkSecretIssue 1]
    ∧ (analyzeSecurity ["password = \"x\""] []).score = 7 := by
  refine ⟨?_, ?_, ?_, ?_⟩
  · intro j
    rw [analyzeSecurity_eq]
    dsimp only
    rw [List.filter_append, List.length_append, dangContrib_filter,
      secretIssuesFrom_filter]
    rw [if_pos (by omega : 1 ≤ j + 1)]
    simp
  · rw [analyzeSecurity_eq]
  · rw [analyzeSecurity_eq]
    have h : secretIssuesFrom 1 ["password = \"x\""] = [mkSecretIssue 1] := by decide
    simp [h, catMap]
  · rw [analyzeSecurity_eq]
    have h1 : totalSecretMatches ["password = \"x\""] = 1 := by decide
    have h2 : (([] : List PyNode).countP isDangerousCall) = 0 := by decide
    dsimp only
    rw [h1, h2]
    norm_num [pyMax]

/-- A for-loop node whose body contains an append expression statement, as
the claim words it. -/
def forBodyAppend : PyNode → Bool
  | .stmt (.forStmt _ _ body _) => bodyContainsAppend body
  | _ => false

/-- The claim-side issue contribution: one low issue per for loop whose body
contains an append expression statement, at the loop line. -/
def perfSpecContrib : PyNode → List Issue
  | .stmt (.forStmt _ _ body lineno) =>
      if bodyContainsAppend body then [listCompIssue lineno] else []
  | _ => []

theorem perfContrib_eq_spec (n : PyNode) : perfContrib n = perfSpecContrib n := by
  cases n with
  | handler h => rfl
  | expr e => rfl
  | stmt s =>
      cases s with
      | forStmt target iter body lineno =>
          show (if (walkStmt (.forStmt target iter body lineno)).any isAppendExprStmt
            then [listCompIssue lineno] else []) =
            (if bodyContainsAppend body then [listCompIssue lineno] else [])
          rw [show (walkStmt (.forStmt target iter body lineno)).any isAppendExprStmt =
            bodyContainsAppend body from perfHit_forStmt target iter body lineno]
      | functionDef a b c d e f => rfl
      | asyncFunctionDef a b c d e f => rfl
      | classDef a b c d => rfl
      | whileStmt a b c => rfl
      | ifStmt a b c d => rfl
      | tryStmt a b c d => rfl
      | exprStmt a b => rfl
      | assign a b c => rfl
      | ret a b => rfl
      | passStmt a => rfl

theorem perfHit_eq_forBodyAppend (n : PyNode) : perfHit n = forBodyAppend n := by
  cases n with
  | handler h => rfl
  | expr e => rfl
  | stmt s =>
      cases s with
      | forStmt target iter body lineno => exact perfHit_forStmt target iter body lineno
      | functionDef a b c d e f => rfl
      | asyncFunctionDef a b c d e f => rfl
      | classDef a b c d => rfl
      | whileStmt a b c => rfl
      | ifStmt a b c d => rfl
      | tryStmt a b c d => rfl
      | exprStmt a b => rfl
      | assign a b c => rfl
      | ret a b => rfl
      | passStmt a => rfl

/-- C5 (amended to for-loops).  The performance issues are exactly one low
List Comprehension Opportunity issue, at the loop line, for every
**for**-loop node whose body contains (at any nesting depth) an expression
statement calling a method named append, and each one costs 0.3. -/
theorem performance_for_append_issues (tree : List PyStmt) :
    (analyzePerformance (walkModule tree)).issues =
      catMap perfSpecContrib (walkModule tree)
    ∧ (analyzePerformance (walkModule tree)).score =
        pyMax 0 ((10 : ℚ) - 0.3 * ((walkModule tree).countP forBodyAppend : ℚ)) := by
  constructor
  · rw [analyzePerformance_eq]
    exact catMap_congr _ _ perfContrib_eq_spec _
  · rw [analyzePerformance_eq]
    dsimp only
    rw [List.countP_congr fun n _ => by rw [perfHit_eq_forBodyAppend]]

/-- C5 counterexample.  A while loop is a loop node, its body contains an
append expression statement, yet the performance analyzer emits no issue
and keeps the score at 10: the check fires for for-loops only. -/
theorem while_append_loop_no_issue :
    (walkModule exWhileTree).countP isLoopNode = 1
    ∧ bodyContainsAppend exWhileBody = true
    ∧ (analyzePerformance (walkModule exWhileTree)).issues = []
    ∧ (analyzePerformance (walkModule exWhileTree)).score = 10 := by
  refine ⟨by decide, by decide, by decide, ?_⟩
  rw [analyzePerformance_eq]
  have h : (walkModule exWhileTree).countP perfHit = 0 := by decide
  dsimp only
  rw [h]
  norm_num [pyMax]

/-- C6.  The error-handling analysis of a parsed file: one high Bare Except
issue per handler without an exception type, each costing 2.0; one medium
No Error Handling issue, costing 2.0, exactly when the file has at least
one counted function and no try statement; and the score is 10 minus these
penalties clamped at 0.  In particular the guard `0 < functions` means a
file with no functions never receives the No Error Handling issue. -/
theorem error_handling_correct (lines : List String) (tree : List PyStmt) :
    (analyzeErrorHandling (walkModule tree)
        (analyzeMetrics lines (walkModule tree)).functions).score =
      pyMax 0 ((10 : ℚ) - 2 * ((walkModule tree).countP isBareHandler : ℚ)
        - (if (walkModule tree).countP isTryNode = 0 ∧
              0 < (analyzeMetrics lines (walkModule tree)).functions then 2 else 0))
    ∧ (analyzeErrorHandling (walkModule tree)
        (analyzeMetrics lines (walkModule tree)).functions).highs =
        catMap errContrib (walkModule tree)
    ∧ (analyzeErrorHandling (walkModule tree)
        (analyzeMetrics lines (walkModule tree)).functions).meds =
        (if (walkModule tree).countP isTryNode = 0 ∧
            0 < (analyzeMetrics lines (walkModule tree)).functions
         then [noErrorHandlingIssue] else []) := by
  exact ⟨analyzeErrorHandling_score _ _, analyzeErrorHandling_highs _ _,
    analyzeErrorHandling_meds _ _⟩

/-- C7.  Whenever the file defines at least one counted function, the
maintainability score is 10 minus 2 when docstring coverage is below 50
percent, minus 1 when type-hint coverage is below 30 percent, clamped at 0;
and the two-line example `def f(): pass` yields one function, no classes,
and maintainability 7.0. -/
theorem maintainability_score_correct :
    (∀ ns : List PyNode, 0 < ns.countP isFunctionDef →
      (analyzeMaintainability ns).score =
        pyMax 0 ((10 : ℚ)
          - (if ((ns.countP hasDocstring : ℚ) / (ns.countP isFunctionDef : ℚ)) * 100 < 50
             then 2 else 0)
          - (if ((ns.countP hasTypeHints : ℚ) / (ns.countP isFunctionDef : ℚ)) * 100 < 30
             then 1 else 0)))
    ∧ (analyzeMetrics exLines7 (walkModule exTree7)).functions = 1
    ∧ (analyzeMetrics exLines7 (walkModule exTree7)).classes = 0
    ∧ (analyzeMaintainability (walkModule exTree7)).score = 7 := by
  refine ⟨?_, by decide, by decide, ?_⟩
  · intro ns hF
    rw [analyzeMaintainability_eq]
    dsimp only
    by_cases hdoc :
        ((ns.countP hasDocstring : ℚ) / (ns.countP isFunctionDef : ℚ)) * 100 < 50 <;>
      by_cases hhint :
          ((ns.countP hasTypeHints : ℚ) / (ns.countP isFunctionDef : ℚ)) * 100 < 30 <;>
        simp [hF, hdoc, hhint]
  · rw [analyzeMaintainability_eq]
    dsimp only
    have h1 : (walkModule exTree7).countP isFunctionDef = 1 := by decide
    have h2 : (walkModule exTree7).countP hasDocstring = 0 := by decide
    have h3 : (walkModule exTree7).countP hasTypeHints = 0 := by decide
    rw [h1, h2, h3]
    norm_num [pyMax]

/-- C7 witness: the general statement applied to the example tree. -/
theorem maintainability_score_witness :
    0 < (walkModule exTree7).countP isFunctionDef
    ∧ (analyzeMaintainability (walkModule exTree7)).score =
        pyMax 0 ((10 : ℚ)
          - (if (((walkModule exTree7).countP hasDocstring : ℚ)
                / ((walkModule exTree7).countP isFunctionDef : ℚ)) * 100 < 50
             then 2 else 0)
          - (if (((walkModule exTree7).countP hasTypeHints : ℚ)
                / ((walkModule exTree7).countP isFunctionDef : ℚ)) * 100 < 30
             then 1 else 0)) :=
  ⟨by decide, maintainability_score_correct.1 (walkModule exTree7) (by decide)⟩

/-- C8.  The analysis is a pure function of the source record: two sources
with the same name, the same lines and the same parse outcome analyze to
the same report (or the same error).  The embedding keeps no other state,
which is the formal content of run-to-run determinism. -/
theorem analyze_deterministic (s t : Source) (h1 : s.fileName = t.fileName)
    (h2 : s.lines = t.lines) (h3 : s.parseResult = t.parseResult) :
    analyze s = analyze t := by
  obtain ⟨f1, l1, p1⟩ := s
  obtain ⟨f2, l2, p2⟩ := t
  dsimp only at h1 h2 h3
  subst h1
  subst h2
  subst h3
  rfl

def exSrc8 : Source := ⟨"a.py", ["pass"], .ok [.passStmt 1]⟩

/-- C8 witness: two runs over the same concrete source give equal results. -/
theorem analyze_deterministic_witness : analyze exSrc8 = analyze exSrc8 :=
  analyze_deterministic exSrc8 exSrc8 rfl rfl rfl

/-- C9.  A file whose walked tree holds no (sync) function definition node,
for example one whose only functions are async: the functions metric is 0,
no Long Function issue or function-length statistic is recorded, the
maintainability analyzer emits nothing and keeps 10, no Naming Convention
issue is emitted, and the No Error Handling issue can never fire. -/
theorem async_functions_invisible (lines : List String) (tree : List PyStmt)
    (h : (walkModule tree).countP isFunctionDef = 0) :
    (analyzeMetrics lines (walkModule tree)).functions = 0
    ∧ (analyzeStructure (walkModule tree) lines
        (analyzeMetrics lines (walkModule tree))).highs = []
    ∧ (analyzeStructure (walkModule tree) lines
        (analyzeMetrics lines (walkModule tree))).metrics =
        analyzeMetrics lines (walkModule tree)
    ∧ (analyzeMaintainability (walkModule tree)).meds = []
    ∧ (analyzeMaintainability (walkModule tree)).lows = []
    ∧ (analyzeMaintainability (walkModule tree)).score = 10
    ∧ (analyzeBestPractices (walkModule tree)).issues.filter
        (fun i => i.issue == "Naming Convention") = []
    ∧ (analyzeErrorHandling (walkModule tree)
        (analyzeMetrics lines (walkModule tree)).functions).meds = [] := by
  have hmem : ∀ n ∈ walkModule tree, isFunctionDef n = false := by
    intro n hn
    have := List.countP_eq_zero.mp h
    simpa using this n hn
  have hfun : (analyzeMetrics lines (walkModule tree)).functions = 0 := by
    rw [analyzeMetrics_functions, h]
  refine ⟨hfun, ?_, ?_, ?_, ?_, ?_, ?_, ?_⟩
  · rw [analyzeStructure_highs]
    exact catMap_eq_nil _ _ fun n hn => structHighContrib_nil n (hmem n hn)
  · exact analyzeStructure_metrics_of_no_functions _ _ _
      (catMap_eq_nil _ _ fun n hn => lengthContrib_nil n (hmem n hn))
  · rw [analyzeMaintainability_eq]
    dsimp only
    rw [h]
    simp
  · rw [analyzeMaintainability_eq]
    dsimp only
    rw [h]
    simp
  · rw [analyzeMaintainability_eq]
    dsimp only
    rw [h]
    norm_num [pyMax]
  · rw [analyzeBestPractices_eq]
    dsimp only
    rw [List.filter_append, printContrib_filter_naming,
      catMap_eq_nil _ _ fun n hn => namingContrib_nil n (hmem n hn)]
    rfl
  · rw [analyzeErrorHandling_meds, hfun]
    simp

/-- C9 witness: the async-only example file. -/
theorem async_functions_invisible_witness :
    (analyzeMetrics exLines9 (walkModule exTree9)).functions = 0
    ∧ (analyzeStructure (walkModule exTree9) exLines9
        (analyzeMetrics exLines9 (walkModule exTree9))).highs = []
    ∧ (analyzeStructure (walkModule exTree9) exLines9
        (analyzeMetrics exLines9 (walkModule exTree9))).metrics =
        analyzeMetrics exLines9 (walkModule exTree9)
    ∧ (analyzeMaintainability (walkModule exTree9)).meds = []
    ∧ (analyzeMaintainability (walkModule exTree9)).lows = []
    ∧ (analyzeMaintainability (walkModule exTree9)).score = 10
    ∧ (analyzeBestPractices (walkModule exTree9)).issues.filter
        (fun i => i.issue == "Naming Convention") = []
    ∧ (analyzeErrorHandling (walkModule exTree9)
        (analyzeMetrics exLines9 (walkModule exTree9)).functions).meds = [] :=
  async_functions_invisible exLines9 exTree9 (by decide)

/-- C10.  Every report the analysis produces carries a complexity metric
equal to 0: the field is initialised to 0 and never assigned again. -/
theorem report_complexity_zero (src : Source) (r : Report)
    (h : analyze src = .ok r) : r.metrics.complexity = 0 := by
  unfold analyze at h
  cases hp : src.parseResult with
  | error e =>
      rw [hp] at h
      simp [generateReport] at h
  | ok tree =>
      rw [hp] at h
      unfold generateReport at h
      dsimp only at h
      have hr := Except.ok.inj h
      rw [← hr]
      dsimp only
      exact runValidAnalysis_complexity src.lines tree

/-- C10 witness: the report of the empty module has complexity 0. -/
theorem report_complexity_zero_witness : exReport10.metrics.complexity = 0 :=
  report_complexity_zero exSrc10 exReport10 rfl

end Analyzer
